import Mathlib

/-!
Shallow embedding of the core logic of `src/ESP32-sensor.ino`
(kiieie/xiao_esp32_sensor): the timer-driven sample producer `onTimer0`,
the spectral pipeline of `processFFTLogic` (DC removal, band reduction,
exponential smoothing via `applyFilter`, noise-floor cutoff), the `/fft`
read handler of `setupWebServer`, and the acquisition state machine
`updateSensorData` together with `initSensors`.

Machine floating-point values (`float`, `double`) are modelled as exact
rationals; external device reads, address probes and the stateful
VOC/NOx index algorithms are supplied as explicit inputs (an `Env`
record and pure functions), so every definition is executable.
-/

namespace XiaoSensor

/-! ### Constants (namespace Config and literals in the sketch) -/

def FFT_SAMPLES : Nat := 4096

def SAMPLING_FREQ : ℚ := 8000

/-- The smoothing weight `alpha = 0.2f` used in `processFFTLogic`. -/
def alphaFFT : ℚ := 1/5

/-- The noise-floor cutoff `5.0f` used in `processFFTLogic`. -/
def noiseFloor : ℚ := 5

/-- Band width `int samplesPerBin = Config::FFT_SAMPLES / 2 / 32;` (= 64). -/
def samplesPerBin : Nat := FFT_SAMPLES / 2 / 32

/-! ### applyFilter (lines 150-153) -/

/-- The helper `applyFilter(current, prev, alpha)`: returns `current` unchanged when
`prev == 0.0f` (initial-value branch), otherwise the exponential moving
average `current * alpha + prev * (1 - alpha)`. -/
def applyFilter (current prev alpha : ℚ) : ℚ :=
  if prev = 0 then current else current * alpha + prev * (1 - alpha)

/-- Iterating the smoothing step of `processFFTLogic` under a constant
raw magnitude `c`: each cycle replaces state `s` by
`applyFilter c s alphaFFT`. -/
def smoothIter (c : ℚ) : Nat → ℚ → ℚ
  | 0, s => s
  | n + 1, s => smoothIter c n (applyFilter c s alphaFFT)

/-! ### DC removal (processFFTLogic step 1, lines 523-527) -/

/-- DC-offset removal: `sum` over all samples, `mean = sum / FFT_SAMPLES`
(the code divides by the constant buffer length), then `vReal[i] -= mean`
for every index. -/
def dcRemove (xs : List ℚ) : List ℚ :=
  let mean := xs.sum / (FFT_SAMPLES : ℚ)
  xs.map (fun x => x - mean)

/-! ### Band reduction and smoothing (processFFTLogic step 3, lines 534-557) -/

/-- The accumulation loop `magSum += vReal[i * samplesPerBin + j + 2]`
for `j = 0 .. samplesPerBin - 1`.  Out-of-range indices read 0 (the
magnitude array is fixed-length in the code; the default only matters
for the band that runs past `FFT_SAMPLES / 2`). -/
def bandMagSum (mags : List ℚ) (i : Nat) : ℚ :=
  (List.range samplesPerBin).foldl
    (fun acc j => acc + mags.getD (i * samplesPerBin + j + 2) 0) 0

/-- Raw band value `currentMag = (float)(magSum / samplesPerBin)` for band `i`. -/
def bandRaw (mags : List ℚ) (i : Nat) : ℚ :=
  bandMagSum mags i / (samplesPerBin : ℚ)

/-- The magnitude-array indices read while computing band `i`. -/
def bandIndices (i : Nat) : List Nat :=
  (List.range samplesPerBin).map (fun j => i * samplesPerBin + j + 2)

/-- Band frequency label `(int)(i * (Config::SAMPLING_FREQ / 2 / 32))`
of band `i`. -/
def bandFreq (i : Nat) : ℤ :=
  Int.floor ((i : ℚ) * (SAMPLING_FREQ / 2 / 32))

/-- One spectral publication cycle over the 32 bands: from the magnitude
array and the persisted `smoothedBins` state, produce the new
`smoothedBins` state and the list of `(freq, mag)` entries serialized
into `fftJsonData` (noise floor applied to the published value only). -/
def bandStep (mags prevSmooth : List ℚ) : List ℚ × List (ℤ × ℚ) :=
  let newSmooth := (List.range 32).map fun i =>
    applyFilter (bandRaw mags i) (prevSmooth.getD i 0) alphaFFT
  let entries := (List.range 32).map fun i =>
    let s := newSmooth.getD i 0
    (bandFreq i, if s < noiseFloor then 0 else s)
  (newSmooth, entries)

/-! ### The /fft read handler (setupWebServer, lines 464-473) -/

/-- The `/fft` handler: `safeFFT` starts as the empty array `"[]"`; only
if the mutex is acquired within the 50 ms timeout is it replaced by the
published `fftJsonData`.  Modelled at the level of entry lists. -/
def fftReadHandler (lockAcquired : Bool) (published : List (ℤ × ℚ)) :
    List (ℤ × ℚ) :=
  if lockAcquired then published else []

/-! ### Sample producer ISR onTimer0 (lines 116-129) -/

/-- State touched by `onTimer0`: the `systemReady` and `isBufferFull`
flags, the static `sampleIndex`, and the two sample arrays. -/
structure ProducerState where
  systemReady : Bool
  isBufferFull : Bool
  sampleIndex : Nat
  vReal : List ℚ
  vImag : List ℚ

/-- One 8 kHz timer tick: return untouched while `!systemReady`; while
`isBufferFull` do nothing; otherwise store the analog sample at
`sampleIndex` with zero imaginary part, advance the index, and on
reaching `FFT_SAMPLES` reset the index and raise `isBufferFull`. -/
def onTimer0 (sample : ℚ) (st : ProducerState) : ProducerState :=
  if st.systemReady = false then st
  else if st.isBufferFull = true then st
  else
    let r := st.vReal.set st.sampleIndex sample
    let im := st.vImag.set st.sampleIndex 0
    if st.sampleIndex + 1 ≥ FFT_SAMPLES then
      { st with vReal := r, vImag := im, sampleIndex := 0, isBufferFull := true }
    else
      { st with vReal := r, vImag := im, sampleIndex := st.sampleIndex + 1 }

/-! ### Acquisition state machine (updateSensorData, lines 566-627) -/

/-- The global `gData` record plus the static locals of
`updateSensorData` (`shtTick`, `sgpTick`, `retryTick`,
`consecutiveErrors`). -/
structure SensorData where
  temp : ℚ
  humi : ℚ
  lux : ℚ
  voc : Nat
  nox : Nat
  srawVoc : Nat
  srawNox : Nat
  hasBH : Bool
  hasSGP : Bool
  hasSHT : Bool
  consecutiveErrors : Nat
  shtTick : Nat
  sgpTick : Nat
  retryTick : Nat

/-- Startup value of `gData` and of the static locals:
`temp = 25.0, humi = 50.0` (defaults used when SHT is absent), all
counters zero, all presence flags false. -/
def initialState : SensorData :=
  { temp := 25, humi := 50, lux := 0, voc := 0, nox := 0,
    srawVoc := 0, srawNox := 0,
    hasBH := false, hasSGP := false, hasSHT := false,
    consecutiveErrors := 0, shtTick := 0, sgpTick := 0, retryTick := 0 }

/-- External inputs of one acquisition tick: the clock `millis()`, the
outcome of each device read (`none` = error code / negative lux), and
the outcome a bus presence probe at each device address would have. -/
structure Env where
  now : Nat
  shtRead : Option (ℚ × ℚ)
  sgpRead : Option (Nat × Nat)
  bhRead : ℚ
  probeSGP : Bool
  probeSHT44 : Bool
  probeSHT45 : Bool
  probeBH : Bool

/-- Step 1 of `updateSensorData`: the SHT4x read.  On success the
reference parameters `gData.temp, gData.humi` receive the measurement
and the error counter resets; on error only the counter increments. -/
def shtStep (e : Env) (st : SensorData) : SensorData :=
  if st.hasSHT = true ∧ 2000 ≤ e.now - st.shtTick then
    match e.shtRead with
    | some th =>
        { st with shtTick := e.now, temp := th.1, humi := th.2,
                  consecutiveErrors := 0 }
    | none =>
        { st with shtTick := e.now,
                  consecutiveErrors := st.consecutiveErrors + 1 }
  else st

/-- Step 2 of `updateSensorData`: the SGP41 read (raw signals updated on
success, error return unchecked by the code) followed by the VOC/NOx
index computations, each gated on a positive raw value. -/
def sgpStep (vocAlg noxAlg : Nat → Nat) (e : Env) (st : SensorData) :
    SensorData :=
  if st.hasSGP = true ∧ 1000 ≤ e.now - st.sgpTick then
    let st1 : SensorData := { st with sgpTick := e.now }
    let st2 : SensorData :=
      match e.sgpRead with
      | some vn => { st1 with srawVoc := vn.1, srawNox := vn.2 }
      | none => st1
    let st3 : SensorData :=
      if 0 < st2.srawVoc then { st2 with voc := vocAlg st2.srawVoc } else st2
    if 0 < st3.srawNox then { st3 with nox := noxAlg st3.srawNox } else st3
  else st

/-- Step 3 of `updateSensorData`: the BH1750 read; `gData.lux` is
overwritten only when the returned level is non-negative. -/
def bhStep (e : Env) (st : SensorData) : SensorData :=
  if st.hasBH = true then
    (if 0 ≤ e.bhRead then { st with lux := e.bhRead } else st)
  else st

/-- The read phase of one tick: SHT, then SGP, then BH, in code order. -/
def readPhase (vocAlg noxAlg : Nat → Nat) (e : Env) (st : SensorData) :
    SensorData :=
  bhStep e (sgpStep vocAlg noxAlg e (shtStep e st))

/-- The bus-freeze check: `if (consecutiveErrors > 20)` run
`recoverI2CBus()` (which toggles SCL and re-begins the bus, touching no
field of `gData`) and reset the counter.  The boolean records whether
recovery fired. -/
def recoveryStep (st : SensorData) : SensorData × Bool :=
  if 20 < st.consecutiveErrors then
    ({ st with consecutiveErrors := 0 }, true)
  else (st, false)

/-- Step 4 of `updateSensorData`: the 10-second reconnection retry.  It
runs only when SGP or SHT is absent; it re-probes SGP at 0x59 and SHT at
0x44 / 0x45.  The BH1750 light sensor is not re-probed here. -/
def retryStep (e : Env) (st : SensorData) : SensorData :=
  if (st.hasSGP = false ∨ st.hasSHT = false) ∧ 10000 ≤ e.now - st.retryTick then
    let st1 : SensorData := { st with retryTick := e.now }
    let st2 : SensorData :=
      if st1.hasSGP = false then { st1 with hasSGP := e.probeSGP } else st1
    if st2.hasSHT = false then
      let addr : Nat :=
        if e.probeSHT44 = true then 68 else if e.probeSHT45 = true then 69 else 0
      if 0 < addr then { st2 with hasSHT := true } else st2
    else st2
  else st

/-- One full `updateSensorData` tick: read phase, bus-freeze recovery
check, reconnection retry.  Returns the new state and whether
`recoverI2CBus` fired. -/
def updateSensorData (vocAlg noxAlg : Nat → Nat) (e : Env)
    (st : SensorData) : SensorData × Bool :=
  let st3 := readPhase vocAlg noxAlg e st
  let p := recoveryStep st3
  (retryStep e p.1, p.2)

/-- Startup probing `initSensors` (lines 328-356): probes BH1750 at 0x23 and SHT4x at
0x44 / 0x45 and assigns the corresponding presence flags.  Note that
`gData.hasSGP` is only tested, never assigned, in `initSensors`. -/
def initSensors (e : Env) (st : SensorData) : SensorData :=
  { st with hasBH := e.probeBH,
            hasSHT := e.probeSHT44 || e.probeSHT45 }

/-! ### Concrete states and environments used as witnesses -/

/-- A producer state as it stands right after `setup` completes:
`systemReady` raised, buffer empty, index zero. -/
def demoProducer : ProducerState :=
  { systemReady := true, isBufferFull := false, sampleIndex := 0,
    vReal := [], vImag := [] }

/-- An environment in which every device read fails, no probe succeeds,
and no schedule interval has elapsed. -/
def envQuiet : Env :=
  { now := 0, shtRead := none, sgpRead := none, bhRead := 0,
    probeSGP := false, probeSHT44 := false, probeSHT45 := false,
    probeBH := false }

/-- A state in which all three sensors have been successfully probed. -/
def stAllOn : SensorData :=
  { initialState with hasBH := true, hasSGP := true, hasSHT := true }

/-- A state whose consecutive-error counter stands at 19 with the SHT
sensor present: one more failed read brings the counter exactly to the
threshold value 20. -/
def stC3 : SensorData :=
  { initialState with hasSHT := true, consecutiveErrors := 19 }

/-- An environment in which the SHT schedule interval has elapsed and
the SHT read fails. -/
def eC3 : Env :=
  { now := 2000, shtRead := none, sgpRead := none, bhRead := 0,
    probeSGP := false, probeSHT44 := false, probeSHT45 := false,
    probeBH := false }

/-- A state whose counter already stands at 21 with the SHT sensor
absent, so the read phase leaves it above the recovery threshold. -/
def stW3 : SensorData := { initialState with consecutiveErrors := 21 }

/-- A state in which the light sensor is the only absent one. -/
def stC2 : SensorData :=
  { initialState with hasSHT := true, hasSGP := true, hasBH := false }

/-- An environment in which 10000 ms have elapsed since the last retry
and a probe at any device address would succeed. -/
def eC2 : Env :=
  { now := 10000, shtRead := none, sgpRead := none, bhRead := 0,
    probeSGP := true, probeSHT44 := true, probeSHT45 := true,
    probeBH := true }

/-- An environment in which every read fails (error code on SHT and
SGP, negative lux on BH) and every schedule interval has elapsed. -/
def eFail : Env :=
  { now := 10000, shtRead := none, sgpRead := none, bhRead := -1,
    probeSGP := false, probeSHT44 := false, probeSHT45 := false,
    probeBH := false }

/-! ### Helper lemmas -/

lemma sum_map_sub_const (xs : List ℚ) (m : ℚ) :
    (xs.map (fun x => x - m)).sum = xs.sum - xs.length * m := by
  induction xs with
  | nil => simp
  | cons a t ih => simp [ih]; ring

lemma getD_map_range (n i : Nat) (f : Nat → ℚ) (d : ℚ) (h : i < n) :
    ((List.range n).map f).getD i d = f i := by
  rw [List.getD_eq_getElem?_getD]
  simp [List.getElem?_map, List.getElem?_range, h]

lemma foldl_add_eq_sum (g : Nat → ℚ) (l : List Nat) (a : ℚ) :
    l.foldl (fun acc j => acc + g j) a = a + (l.map g).sum := by
  induction l generalizing a with
  | nil => simp
  | cons x t ih => simp [ih]; ring

lemma applyFilter_between (c s : ℚ) :
    min s c ≤ applyFilter c s alphaFFT ∧ applyFilter c s alphaFFT ≤ max s c := by
  unfold applyFilter alphaFFT
  split
  · exact ⟨min_le_right s c, le_max_right s c⟩
  · rcases le_total s c with h | h
    · rw [min_eq_left h, max_eq_right h]
      constructor <;> nlinarith
    · rw [min_eq_right h, max_eq_left h]
      constructor <;> nlinarith

lemma applyFilter_dist (c s : ℚ) :
    |applyFilter c s alphaFFT - c| ≤ 4/5 * |s - c| := by
  unfold applyFilter alphaFFT
  split
  · rename_i h
    subst h
    simp
  · have h4 : c * (1/5) + s * (1 - 1/5) - c = 4/5 * (s - c) := by ring
    rw [h4, abs_mul]
    have h5 : |(4/5 : ℚ)| = 4/5 := by norm_num
    rw [h5]

lemma smoothIter_dist (c : ℚ) (n : Nat) (s : ℚ) :
    |smoothIter c n s - c| ≤ (4/5)^n * |s - c| := by
  induction n generalizing s with
  | zero => simp [smoothIter]
  | succ n ih =>
    calc |smoothIter c (n + 1) s - c|
        = |smoothIter c n (applyFilter c s alphaFFT) - c| := rfl
      _ ≤ (4/5)^n * |applyFilter c s alphaFFT - c| := ih _
      _ ≤ (4/5)^n * (4/5 * |s - c|) := by
          exact mul_le_mul_of_nonneg_left (applyFilter_dist c s) (by positivity)
      _ = (4/5)^(n + 1) * |s - c| := by ring

/-! ### Claim theorems: spectral pipeline -/

/-- C9: subtracting the mean computed by the DC-removal step leaves a
sequence of the same length `S` whose sum, hence arithmetic mean, is
exactly zero (exact arithmetic). -/
theorem dcRemove_mean_zero (xs : List ℚ) (h : xs.length = FFT_SAMPLES) :
    (dcRemove xs).sum = 0 ∧
    (dcRemove xs).sum / ((dcRemove xs).length : ℚ) = 0 := by
  have hne : (FFT_SAMPLES : ℚ) ≠ 0 := by norm_num [FFT_SAMPLES]
  have hs : (dcRemove xs).sum = 0 := by
    show (xs.map (fun x => x - xs.sum / (FFT_SAMPLES : ℚ))).sum = 0
    rw [sum_map_sub_const, h]
    field_simp
  exact ⟨hs, by rw [hs]; simp⟩

/-- Witness for C9 at the all-zero buffer of length `FFT_SAMPLES`. -/
theorem dcRemove_mean_zero_witness :
    (List.replicate FFT_SAMPLES (0:ℚ)).length = FFT_SAMPLES ∧
    (dcRemove (List.replicate FFT_SAMPLES (0:ℚ))).sum = 0 :=
  ⟨by simp, (dcRemove_mean_zero (List.replicate FFT_SAMPLES 0) (by simp)).1⟩

/-- C8: under a constant raw magnitude `c`, one smoothing step never
overshoots (the new value lies between the previous state and `c`,
inclusive), and the iterated distance to `c` decays at least
geometrically with ratio `1 - alphaFFT = 4/5`, so the sequence converges
monotonically toward `c`. -/
theorem smoothing_monotone_convergence (c s : ℚ) :
    (min s c ≤ applyFilter c s alphaFFT ∧ applyFilter c s alphaFFT ≤ max s c) ∧
    ∀ n : Nat, |smoothIter c n s - c| ≤ (4/5)^n * |s - c| :=
  ⟨applyFilter_between c s, fun n => smoothIter_dist c n s⟩

/-- C4 counterexample: at `smoothed_prev = 0` with raw value `10`,
`applyFilter` returns the raw value `10` itself, not the EMA value
`alpha * 10 + (1 - alpha) * 0 = 2`, so the claimed formula fails for
the pair `(10, 0)`. -/
theorem applyFilter_zero_prev_breaks_ema :
    applyFilter 10 0 alphaFFT ≠ alphaFFT * 10 + (1 - alphaFFT) * 0 := by
  norm_num [applyFilter, alphaFFT]

/-- C4 amended: for each band `i < 32`, the new smoothed value produced
by a pipeline cycle is the raw band value itself when the persisted
state is `0` (initialization branch of `applyFilter`), and otherwise
equals `alpha * raw + (1 - alpha) * smoothed_prev` with
`alpha = alphaFFT = 1/5`; the persisted state list always has all
32 band entries. -/
theorem bandStep_smoothing_formula (mags prevSmooth : List ℚ) (i : Nat)
    (h : i < 32) :
    ((bandStep mags prevSmooth).1).getD i 0 =
      (if prevSmooth.getD i 0 = 0 then bandRaw mags i
       else alphaFFT * bandRaw mags i + (1 - alphaFFT) * prevSmooth.getD i 0) ∧
    ((bandStep mags prevSmooth).1).length = 32 := by
  constructor
  · have h1 : (bandStep mags prevSmooth).1 =
        (List.range 32).map
          (fun i => applyFilter (bandRaw mags i) (prevSmooth.getD i 0) alphaFFT) := rfl
    rw [h1, getD_map_range _ _ _ _ h]
    unfold applyFilter
    split_ifs with hc
    · rfl
    · ring
  · simp [bandStep]

/-- Witness for C4 amended at band 0 on empty inputs. -/
theorem bandStep_smoothing_formula_witness :
    (0:Nat) < 32 ∧ ((bandStep [] []).1).length = 32 :=
  ⟨by norm_num, (bandStep_smoothing_formula [] [] 0 (by norm_num)).2⟩

/-- C5 counterexample: band 31 reads magnitude-bin index 2049 (and also
2048), which is at/beyond `FFT_SAMPLES / 2 = 2048`, refuting the claim
that no group reads a bin index at or beyond `S/2`. -/
theorem bandIndices_overrun :
    2049 ∈ bandIndices 31 ∧ FFT_SAMPLES / 2 ≤ 2049 ∧ 2048 ∈ bandIndices 31 := by
  refine ⟨by decide, by decide, by decide⟩

/-- C5 amended: each band `i < 32` is the arithmetic mean of the 64
(`samplesPerBin`) contiguous magnitude bins at indices
`i * 64 + 2 .. i * 64 + 65` (the 2-bin DC skip shifts every group up by
two); bands `0 .. 30` stay strictly below `FFT_SAMPLES / 2 = 2048`,
while band 31's group runs two bins past it. -/
theorem bandReduction_amended (mags : List ℚ) (i : Nat) (h : i < 32) :
    bandRaw mags i =
      ((bandIndices i).map (fun k => mags.getD k 0)).sum / (samplesPerBin : ℚ) ∧
    (∀ k ∈ bandIndices i,
        i * samplesPerBin + 2 ≤ k ∧ k ≤ i * samplesPerBin + samplesPerBin + 1) ∧
    (i ≤ 30 → ∀ k ∈ bandIndices i, k < FFT_SAMPLES / 2) := by
  have hspb : samplesPerBin = 64 := rfl
  refine ⟨?_, ?_, ?_⟩
  · unfold bandRaw bandMagSum bandIndices
    rw [List.map_map, foldl_add_eq_sum, zero_add]
    rfl
  · intro k hk
    simp only [bandIndices, List.mem_map, List.mem_range] at hk
    obtain ⟨j, hj, rfl⟩ := hk
    omega
  · intro h30 k hk
    simp only [bandIndices, List.mem_map, List.mem_range] at hk
    obtain ⟨j, hj, rfl⟩ := hk
    have hhalf : FFT_SAMPLES / 2 = 2048 := rfl
    rw [hspb] at hj ⊢
    rw [hhalf]
    omega

/-- Witness for C5 amended at band 0 on the empty magnitude list. -/
theorem bandReduction_amended_witness :
    (0:Nat) < 32 ∧ ((0:Nat) ≤ 30 → ∀ k ∈ bandIndices 0, k < FFT_SAMPLES / 2) :=
  ⟨by norm_num, (bandReduction_amended [] 0 (by norm_num)).2.2⟩

/-- C1 counterexample: when the 50 ms mutex acquisition fails, the
`/fft` handler answers with the freshly initialized empty array `[]`
(zero entries), not with the previously published 32-entry copy. -/
theorem fftRead_timeout_not_cached :
    ((bandStep [] []).2).length = 32 ∧
    fftReadHandler false (bandStep [] []).2 = [] ∧
    fftReadHandler false (bandStep [] []).2 ≠ (bandStep [] []).2 := by
  refine ⟨by simp [bandStep], rfl, ?_⟩
  intro hcontra
  have hlen := congrArg List.length hcontra
  simp [bandStep, fftReadHandler] at hlen

/-- C1 amended: when the lock is acquired within the timeout, `read`
returns exactly the published copy, which always carries all 32 band
entries; when the lock is not acquired, it returns the empty spectrum
`[]` (zero entries) rather than the previous cached copy. -/
theorem fftRead_amended (mags prevSmooth : List ℚ) :
    fftReadHandler true (bandStep mags prevSmooth).2 = (bandStep mags prevSmooth).2 ∧
    ((bandStep mags prevSmooth).2).length = 32 ∧
    fftReadHandler false (bandStep mags prevSmooth).2 = [] :=
  ⟨rfl, by simp [bandStep], rfl⟩

/-! ### Claim theorem: sample producer -/

/-- C6: a timer tick is a no-op while the system is not ready or the
buffer is marked full; otherwise it stores exactly one sample (zero
imaginary part) at the current index and advances the index, raising
the full flag and resetting the index to zero exactly when the index
reaches `FFT_SAMPLES`; the index always stays in `[0, FFT_SAMPLES)`. -/
theorem onTimer0_contract (sample : ℚ) (st : ProducerState)
    (hidx : st.sampleIndex < FFT_SAMPLES) :
    ((st.systemReady = false ∨ st.isBufferFull = true) → onTimer0 sample st = st) ∧
    (st.systemReady = true → st.isBufferFull = false →
      ((onTimer0 sample st).vReal = st.vReal.set st.sampleIndex sample ∧
       (onTimer0 sample st).vImag = st.vImag.set st.sampleIndex 0 ∧
       ((st.sampleIndex + 1 < FFT_SAMPLES ∧
         (onTimer0 sample st).sampleIndex = st.sampleIndex + 1 ∧
         (onTimer0 sample st).isBufferFull = false) ∨
        (st.sampleIndex + 1 = FFT_SAMPLES ∧
         (onTimer0 sample st).sampleIndex = 0 ∧
         (onTimer0 sample st).isBufferFull = true)))) ∧
    (onTimer0 sample st).sampleIndex < FFT_SAMPLES := by
  refine ⟨?_, ?_, ?_⟩
  · rintro (h | h)
    · simp [onTimer0, h]
    · rcases hr : st.systemReady <;> simp [onTimer0, h, hr]
  · intro hr hf
    simp only [onTimer0, hr, hf]
    norm_num
    split_ifs with hge
    · exact ⟨rfl, rfl, Or.inr ⟨by omega, rfl, rfl⟩⟩
    · exact ⟨rfl, rfl, Or.inl ⟨by omega, rfl, rfl⟩⟩
  · rcases hr : st.systemReady <;> rcases hfl : st.isBufferFull <;>
      simp only [onTimer0, hr, hfl] <;> norm_num
    all_goals try exact hidx
    split_ifs with hge
    · show 0 < FFT_SAMPLES
      norm_num [FFT_SAMPLES]
    · show st.sampleIndex + 1 < FFT_SAMPLES
      omega

/-- Witness for C6: one tick from the fresh post-setup state. -/
theorem onTimer0_contract_witness :
    demoProducer.sampleIndex < FFT_SAMPLES ∧
    (onTimer0 0 demoProducer).sampleIndex < FFT_SAMPLES :=
  ⟨by decide, (onTimer0_contract 0 demoProducer (by decide)).2.2⟩

/-! ### Helper lemmas: acquisition state machine -/

lemma shtStep_pres (e : Env) (st : SensorData) :
    (shtStep e st).hasSHT = st.hasSHT ∧ (shtStep e st).hasSGP = st.hasSGP ∧
    (shtStep e st).hasBH = st.hasBH ∧ (shtStep e st).lux = st.lux ∧
    (shtStep e st).voc = st.voc ∧ (shtStep e st).nox = st.nox ∧
    (shtStep e st).srawVoc = st.srawVoc ∧ (shtStep e st).srawNox = st.srawNox ∧
    (shtStep e st).retryTick = st.retryTick := by
  by_cases hc : st.hasSHT = true ∧ 2000 ≤ e.now - st.shtTick
  · rcases hsr : e.shtRead with _ | th <;> simp [shtStep, hc, hsr]
  · simp [shtStep, hc]

lemma shtStep_err_le (e : Env) (st : SensorData) :
    (shtStep e st).consecutiveErrors ≤ st.consecutiveErrors + 1 := by
  by_cases hc : st.hasSHT = true ∧ 2000 ≤ e.now - st.shtTick
  · rcases hsr : e.shtRead with _ | th <;> simp [shtStep, hc, hsr]
  · simp [shtStep, hc]

lemma shtStep_none (e : Env) (st : SensorData) (hsr : e.shtRead = none) :
    (shtStep e st).temp = st.temp ∧ (shtStep e st).humi = st.humi := by
  by_cases hc : st.hasSHT = true ∧ 2000 ≤ e.now - st.shtTick
  · simp [shtStep, hc, hsr]
  · simp [shtStep, hc]

lemma sgpStep_pres (vA nA : Nat → Nat) (e : Env) (st : SensorData) :
    (sgpStep vA nA e st).hasSHT = st.hasSHT ∧
    (sgpStep vA nA e st).hasSGP = st.hasSGP ∧
    (sgpStep vA nA e st).hasBH = st.hasBH ∧
    (sgpStep vA nA e st).temp = st.temp ∧
    (sgpStep vA nA e st).humi = st.humi ∧
    (sgpStep vA nA e st).lux = st.lux ∧
    (sgpStep vA nA e st).consecutiveErrors = st.consecutiveErrors ∧
    (sgpStep vA nA e st).retryTick = st.retryTick := by
  by_cases hc : st.hasSGP = true ∧ 1000 ≤ e.now - st.sgpTick
  · unfold sgpStep
    rw [if_pos hc]
    rcases hsg : e.sgpRead with _ | vn <;> simp only [hsg] <;>
      split_ifs <;> simp
  · simp [sgpStep, hc]

lemma sgpStep_none_values (vA nA : Nat → Nat) (e : Env) (st : SensorData)
    (hsg : e.sgpRead = none)
    (hvoc : 0 < st.srawVoc → st.voc = vA st.srawVoc)
    (hnox : 0 < st.srawNox → st.nox = nA st.srawNox) :
    (sgpStep vA nA e st).voc = st.voc ∧
    (sgpStep vA nA e st).nox = st.nox ∧
    (sgpStep vA nA e st).srawVoc = st.srawVoc ∧
    (sgpStep vA nA e st).srawNox = st.srawNox := by
  by_cases hc : st.hasSGP = true ∧ 1000 ≤ e.now - st.sgpTick
  · simp only [sgpStep, hc, if_true, hsg]
    by_cases hv : 0 < st.srawVoc <;> by_cases hn : 0 < st.srawNox <;>
      simp [hv, hn]
    · exact ⟨(hvoc hv).symm, (hnox hn).symm⟩
    · exact (hvoc hv).symm
    · exact (hnox hn).symm
  · simp [sgpStep, hc]

lemma bhStep_pres (e : Env) (st : SensorData) :
    (bhStep e st).hasSHT = st.hasSHT ∧ (bhStep e st).hasSGP = st.hasSGP ∧
    (bhStep e st).hasBH = st.hasBH ∧ (bhStep e st).temp = st.temp ∧
    (bhStep e st).humi = st.humi ∧ (bhStep e st).voc = st.voc ∧
    (bhStep e st).nox = st.nox ∧ (bhStep e st).srawVoc = st.srawVoc ∧
    (bhStep e st).srawNox = st.srawNox ∧
    (bhStep e st).consecutiveErrors = st.consecutiveErrors ∧
    (bhStep e st).retryTick = st.retryTick := by
  by_cases hb : st.hasBH = true
  · by_cases hl : 0 ≤ e.bhRead <;> simp [bhStep, hb, hl]
  · simp [bhStep, hb]

lemma bhStep_neg_lux (e : Env) (st : SensorData) (hl : e.bhRead < 0) :
    (bhStep e st).lux = st.lux := by
  by_cases hb : st.hasBH = true
  · simp [bhStep, hb, not_le.mpr hl]
  · simp [bhStep, hb]

lemma recoveryStep_pres (st : SensorData) :
    (recoveryStep st).1.hasSHT = st.hasSHT ∧
    (recoveryStep st).1.hasSGP = st.hasSGP ∧
    (recoveryStep st).1.hasBH = st.hasBH ∧
    (recoveryStep st).1.temp = st.temp ∧ (recoveryStep st).1.humi = st.humi ∧
    (recoveryStep st).1.lux = st.lux ∧ (recoveryStep st).1.voc = st.voc ∧
    (recoveryStep st).1.nox = st.nox ∧
    (recoveryStep st).1.srawVoc = st.srawVoc ∧
    (recoveryStep st).1.srawNox = st.srawNox ∧
    (recoveryStep st).1.retryTick = st.retryTick := by
  by_cases hc : 20 < st.consecutiveErrors <;> simp [recoveryStep, hc]

lemma recoveryStep_fires (st : SensorData) (h : 20 < st.consecutiveErrors) :
    (recoveryStep st).2 = true ∧ (recoveryStep st).1.consecutiveErrors = 0 := by
  simp [recoveryStep, h]

lemma recoveryStep_quiet (st : SensorData) (h : st.consecutiveErrors ≤ 20) :
    (recoveryStep st).2 = false ∧ (recoveryStep st).1 = st := by
  simp [recoveryStep, not_lt.mpr h]

lemma retryStep_pres (e : Env) (st : SensorData) :
    (retryStep e st).temp = st.temp ∧ (retryStep e st).humi = st.humi ∧
    (retryStep e st).lux = st.lux ∧ (retryStep e st).voc = st.voc ∧
    (retryStep e st).nox = st.nox ∧ (retryStep e st).srawVoc = st.srawVoc ∧
    (retryStep e st).srawNox = st.srawNox ∧
    (retryStep e st).consecutiveErrors = st.consecutiveErrors ∧
    (retryStep e st).hasBH = st.hasBH := by
  by_cases hc : (st.hasSGP = false ∨ st.hasSHT = false) ∧ 10000 ≤ e.now - st.retryTick
  · simp only [retryStep, hc, if_true]
    split_ifs <;> simp
  · simp [retryStep, hc]

lemma retryStep_mono (e : Env) (st : SensorData) :
    (st.hasSGP = true → (retryStep e st).hasSGP = true) ∧
    (st.hasSHT = true → (retryStep e st).hasSHT = true) := by
  by_cases hc : (st.hasSGP = false ∨ st.hasSHT = false) ∧ 10000 ≤ e.now - st.retryTick
  · simp only [retryStep, hc, if_true]
    constructor
    · intro hg
      split_ifs <;> simp_all
    · intro hs
      split_ifs <;> simp_all
  · simp [retryStep, hc]

lemma readPhase_flags (vA nA : Nat → Nat) (e : Env) (st : SensorData) :
    (readPhase vA nA e st).hasSHT = st.hasSHT ∧
    (readPhase vA nA e st).hasSGP = st.hasSGP ∧
    (readPhase vA nA e st).hasBH = st.hasBH ∧
    (readPhase vA nA e st).retryTick = st.retryTick := by
  obtain ⟨a1, a2, a3, a4, a5, a6, a7, a8, a9⟩ := shtStep_pres e st
  obtain ⟨b1, b2, b3, b4, b5, b6, b7, b8⟩ := sgpStep_pres vA nA e (shtStep e st)
  obtain ⟨c1, c2, c3, c4, c5, c6, c7, c8, c9, c10, c11⟩ :=
    bhStep_pres e (sgpStep vA nA e (shtStep e st))
  exact ⟨c1.trans (b1.trans a1), c2.trans (b2.trans a2),
         c3.trans (b3.trans a3), c11.trans (b8.trans a9)⟩

lemma readPhase_err_le (vA nA : Nat → Nat) (e : Env) (st : SensorData) :
    (readPhase vA nA e st).consecutiveErrors ≤ st.consecutiveErrors + 1 := by
  obtain ⟨c1, c2, c3, c4, c5, c6, c7, c8, c9, c10, c11⟩ :=
    bhStep_pres e (sgpStep vA nA e (shtStep e st))
  obtain ⟨b1, b2, b3, b4, b5, b6, b7, b8⟩ := sgpStep_pres vA nA e (shtStep e st)
  have ha := shtStep_err_le e st
  show (bhStep e (sgpStep vA nA e (shtStep e st))).consecutiveErrors ≤ _
  omega

lemma upd_mono (vA nA : Nat → Nat) (e : Env) (st : SensorData) :
    (st.hasSHT = true → ((updateSensorData vA nA e st).1).hasSHT = true) ∧
    (st.hasSGP = true → ((updateSensorData vA nA e st).1).hasSGP = true) ∧
    ((updateSensorData vA nA e st).1).hasBH = st.hasBH := by
  obtain ⟨r1, r2, r3, _⟩ := readPhase_flags vA nA e st
  obtain ⟨q1, q2, q3, _⟩ := recoveryStep_pres (readPhase vA nA e st)
  obtain ⟨m1, m2⟩ := retryStep_mono e (recoveryStep (readPhase vA nA e st)).1
  obtain ⟨_, _, _, _, _, _, _, _, pbh⟩ :=
    retryStep_pres e (recoveryStep (readPhase vA nA e st)).1
  refine ⟨?_, ?_, ?_⟩
  · intro h
    exact m2 ((q1.trans r1).trans h)
  · intro h
    exact m1 ((q2.trans r2).trans h)
  · exact pbh.trans (q3.trans r3)

lemma retryStep_probes (e : Env) (st : SensorData)
    (helapsed : 10000 ≤ e.now - st.retryTick) :
    (st.hasSGP = false → e.probeSGP = true → (retryStep e st).hasSGP = true) ∧
    (st.hasSHT = false → (e.probeSHT44 = true ∨ e.probeSHT45 = true) →
      (retryStep e st).hasSHT = true) := by
  constructor
  · intro hg hp
    have hcond : (st.hasSGP = false ∨ st.hasSHT = false) ∧
        10000 ≤ e.now - st.retryTick := ⟨Or.inl hg, helapsed⟩
    unfold retryStep
    rw [if_pos hcond]
    simp only [hg, if_true]
    split_ifs <;> simp [hp]
  · intro hs hp
    have hcond : (st.hasSGP = false ∨ st.hasSHT = false) ∧
        10000 ≤ e.now - st.retryTick := ⟨Or.inr hs, helapsed⟩
    unfold retryStep
    rw [if_pos hcond]
    by_cases hg : st.hasSGP = false <;> simp only [hg, if_true, if_false] <;>
      simp only [hs, if_true] <;>
      rcases hp with h44 | h45
    · simp [h44]
    · by_cases h44' : e.probeSHT44 = true <;> simp [h44', h45]
    · simp [h44]
    · by_cases h44' : e.probeSHT44 = true <;> simp [h44', h45]

/-! ### Claim theorems: acquisition state machine -/

/-- C10: the acquisition tick never clears a presence flag: a set
`hasSHT` or `hasSGP` stays set under every environment (including those
driving the error counter past the recovery threshold), and `hasBH` is
never modified at all; `initSensors` never assigns `hasSGP`, and the
startup state it runs on has all presence flags `false`, so no
operation ever moves a presence flag from `true` to `false`. -/
theorem presence_flags_never_cleared (vA nA : Nat → Nat) (e : Env)
    (st : SensorData) :
    (st.hasSHT = true → ((updateSensorData vA nA e st).1).hasSHT = true) ∧
    (st.hasSGP = true → ((updateSensorData vA nA e st).1).hasSGP = true) ∧
    ((updateSensorData vA nA e st).1).hasBH = st.hasBH ∧
    (initSensors e st).hasSGP = st.hasSGP ∧
    initialState.hasSHT = false ∧ initialState.hasSGP = false ∧
    initialState.hasBH = false := by
  obtain ⟨h1, h2, h3⟩ := upd_mono vA nA e st
  exact ⟨h1, h2, h3, rfl, rfl, rfl, rfl⟩

/-- Witness for C10: a tick on the all-sensors-present state keeps
`hasSHT` set. -/
theorem presence_flags_never_cleared_witness :
    ((updateSensorData id id envQuiet stAllOn).1).hasSHT = true :=
  (presence_flags_never_cleared id id envQuiet stAllOn).1 rfl

/-- C3 counterexample: a tick that brings the consecutive-error counter
exactly to the threshold value 20 does not fire bus recovery (the code
fires only on `consecutiveErrors > 20`), refuting "at N == 20 the
bus-recovery procedure fires"; the counter observably reaches 20 and
recovery did not fire on that tick. -/
theorem bus_recovery_not_at_threshold :
    ((updateSensorData id id eC3 stC3).1).consecutiveErrors = 20 ∧
    (updateSensorData id id eC3 stC3).2 = false :=
  ⟨rfl, rfl⟩

/-- C3 amended: when the error counter after the read phase exceeds 20
(i.e. at N = 21), the recovery procedure fires on that tick, the counter
resets to 0, set presence flags are preserved (only the bus is reset),
and no immediately following tick can fire recovery again — so recovery
is not re-triggered on every subsequent failure. -/
theorem bus_recovery_above_threshold (vA nA : Nat → Nat) (e : Env)
    (st : SensorData)
    (h : 20 < (readPhase vA nA e st).consecutiveErrors) :
    (updateSensorData vA nA e st).2 = true ∧
    ((updateSensorData vA nA e st).1).consecutiveErrors = 0 ∧
    (st.hasSHT = true → ((updateSensorData vA nA e st).1).hasSHT = true) ∧
    (st.hasSGP = true → ((updateSensorData vA nA e st).1).hasSGP = true) ∧
    ((updateSensorData vA nA e st).1).hasBH = st.hasBH ∧
    ∀ e2, (updateSensorData vA nA e2 ((updateSensorData vA nA e st).1)).2 = false := by
  obtain ⟨hf2, hf1⟩ := recoveryStep_fires (readPhase vA nA e st) h
  obtain ⟨hm1, hm2, hm3⟩ := upd_mono vA nA e st
  obtain ⟨_, _, _, _, _, _, _, pce, _⟩ :=
    retryStep_pres e (recoveryStep (readPhase vA nA e st)).1
  have hce0 : ((updateSensorData vA nA e st).1).consecutiveErrors = 0 :=
    pce.trans hf1
  refine ⟨hf2, hce0, hm1, hm2, hm3, ?_⟩
  intro e2
  have hb := readPhase_err_le vA nA e2 (updateSensorData vA nA e st).1
  rw [hce0] at hb
  exact (recoveryStep_quiet _ (by omega)).1

/-- Witness for C3 amended: recovery fires on this tick. -/
theorem bus_recovery_above_threshold_witness :
    (updateSensorData id id envQuiet stW3).2 = true :=
  (bus_recovery_above_threshold id id envQuiet stW3 (by decide)).1

/-- C2 counterexample: with the light sensor absent, the retry interval
elapsed, and a BH1750 probe that would succeed, the tick still leaves
`hasBH = false` — the reconnection logic never re-probes the light
sensor. -/
theorem light_sensor_never_reprobed :
    stC2.hasBH = false ∧ eC2.probeBH = true ∧
    10000 ≤ eC2.now - stC2.retryTick ∧
    ((updateSensorData id id eC2 stC2).1).hasBH = false :=
  ⟨rfl, rfl, by decide, rfl⟩

/-- C2 amended: at a tick where 10000 ms have elapsed since the last
retry, an absent gas sensor whose probe succeeds is re-initialized and
flips to present, and likewise an absent thermal/humidity sensor whose
probe at either candidate address succeeds; the light sensor's presence
flag is never changed by a tick — light is not part of the retry. -/
theorem reconnect_amended (vA nA : Nat → Nat) (e : Env) (st : SensorData)
    (helapsed : 10000 ≤ e.now - st.retryTick) :
    (st.hasSGP = false → e.probeSGP = true →
      ((updateSensorData vA nA e st).1).hasSGP = true) ∧
    (st.hasSHT = false → (e.probeSHT44 = true ∨ e.probeSHT45 = true) →
      ((updateSensorData vA nA e st).1).hasSHT = true) ∧
    ((updateSensorData vA nA e st).1).hasBH = st.hasBH := by
  obtain ⟨r1, r2, r3, r4⟩ := readPhase_flags vA nA e st
  obtain ⟨q1, q2, q3, _, _, _, _, _, _, _, qrt⟩ :=
    recoveryStep_pres (readPhase vA nA e st)
  have helapsed2 :
      10000 ≤ e.now - ((recoveryStep (readPhase vA nA e st)).1).retryTick := by
    rw [qrt.trans r4]
    exact helapsed
  obtain ⟨pg, ps⟩ :=
    retryStep_probes e (recoveryStep (readPhase vA nA e st)).1 helapsed2
  refine ⟨?_, ?_, (upd_mono vA nA e st).2.2⟩
  · intro hg hp
    exact pg ((q2.trans r2).trans hg) hp
  · intro hs hp
    exact ps ((q1.trans r1).trans hs) hp

/-- Witness for C2 amended: from the startup state (gas and
thermal/humidity absent) with successful probes, the gas sensor flips
to present. -/
theorem reconnect_amended_witness :
    ((updateSensorData id id eC2 initialState).1).hasSGP = true :=
  (reconnect_amended id id eC2 initialState (by decide)).1 rfl rfl

/-- C7: a tick on which every device read fails, with the error counter
below the threshold 20, fires no bus recovery, leaves every published
reading value (temperature, humidity, lux, VOC/NOx indices and raw
signals) in place, and never clears a set presence flag.  The
`hvoc`/`hnox` hypotheses say the published indices already agree with
the (pure) index algorithms on the retained raw signals, which holds
for any state the SGP path itself produced. -/
theorem transient_failure_harmless (vA nA : Nat → Nat) (e : Env)
    (st : SensorData)
    (hsht : e.shtRead = none) (hsgp : e.sgpRead = none) (hbh : e.bhRead < 0)
    (herr : st.consecutiveErrors < 20)
    (hvoc : 0 < st.srawVoc → st.voc = vA st.srawVoc)
    (hnox : 0 < st.srawNox → st.nox = nA st.srawNox) :
    (updateSensorData vA nA e st).2 = false ∧
    ((updateSensorData vA nA e st).1).temp = st.temp ∧
    ((updateSensorData vA nA e st).1).humi = st.humi ∧
    ((updateSensorData vA nA e st).1).lux = st.lux ∧
    ((updateSensorData vA nA e st).1).voc = st.voc ∧
    ((updateSensorData vA nA e st).1).nox = st.nox ∧
    ((updateSensorData vA nA e st).1).srawVoc = st.srawVoc ∧
    ((updateSensorData vA nA e st).1).srawNox = st.srawNox ∧
    (st.hasSHT = true → ((updateSensorData vA nA e st).1).hasSHT = true) ∧
    (st.hasSGP = true → ((updateSensorData vA nA e st).1).hasSGP = true) ∧
    ((updateSensorData vA nA e st).1).hasBH = st.hasBH := by
  obtain ⟨a1, a2, a3, a4, a5, a6, a7, a8, a9⟩ := shtStep_pres e st
  obtain ⟨ht, hh⟩ := shtStep_none e st hsht
  obtain ⟨b1, b2, b3, b4, b5, b6, b7, b8⟩ := sgpStep_pres vA nA e (shtStep e st)
  obtain ⟨gv, gn, gsv, gsn⟩ := sgpStep_none_values vA nA e (shtStep e st) hsgp
    (by rw [a5, a7]; exact hvoc) (by rw [a6, a8]; exact hnox)
  obtain ⟨c1, c2, c3, c4, c5, c6, c7, c8, c9, c10, c11⟩ :=
    bhStep_pres e (sgpStep vA nA e (shtStep e st))
  have hlx := bhStep_neg_lux e (sgpStep vA nA e (shtStep e st)) hbh
  have hble :
      (bhStep e (sgpStep vA nA e (shtStep e st))).consecutiveErrors ≤ 20 := by
    have ha := shtStep_err_le e st
    omega
  obtain ⟨hq2, hq1⟩ :=
    recoveryStep_quiet (bhStep e (sgpStep vA nA e (shtStep e st))) hble
  obtain ⟨hm1, hm2, hm3⟩ := upd_mono vA nA e st
  have hupd1 : (updateSensorData vA nA e st).1 =
      retryStep e (bhStep e (sgpStep vA nA e (shtStep e st))) := by
    show retryStep e
        (recoveryStep (bhStep e (sgpStep vA nA e (shtStep e st)))).1 = _
    rw [hq1]
  obtain ⟨d1, d2, d3, d4, d5, d6, d7, d8, d9⟩ :=
    retryStep_pres e (bhStep e (sgpStep vA nA e (shtStep e st)))
  refine ⟨hq2, ?_, ?_, ?_, ?_, ?_, ?_, ?_, hm1, hm2, hm3⟩
  · rw [hupd1]; exact d1.trans (c4.trans (b4.trans ht))
  · rw [hupd1]; exact d2.trans (c5.trans (b5.trans hh))
  · rw [hupd1]; exact d3.trans (hlx.trans (b6.trans a4))
  · rw [hupd1]; exact d4.trans (c6.trans (gv.trans a5))
  · rw [hupd1]; exact d5.trans (c7.trans (gn.trans a6))
  · rw [hupd1]; exact d6.trans (c8.trans (gsv.trans a7))
  · rw [hupd1]; exact d7.trans (c9.trans (gsn.trans a8))

/-- Witness for C7: all reads failing on the all-sensors-present state
leaves the published temperature in place. -/
theorem transient_failure_harmless_witness :
    ((updateSensorData id id eFail stAllOn).1).temp = stAllOn.temp :=
  (transient_failure_harmless id id eFail stAllOn rfl rfl (by decide)
    (by decide) (by decide) (by decide)).2.1

end XiaoSensor
